import Mathlib

/-!
Shallow embedding of the `async-lsp` core middleware, taken from
`src/server.rs` (the `Lifecycle` middleware) and `src/omni_trait.rs`
(the omni-trait default method bodies), together with theorems about
the LSP lifecycle state machine and the default handlers.

Conventions of the embedding:
* `AnyRequest` / `AnyNotification` carry a `method: String`; only the
  method string is inspected by the code modelled here, so the embedding
  takes the method string directly.
* `Lifecycle<S>` holds an inner service `S` and a `state: State`.  The
  embedding does not model the inner service itself; instead the outcome
  type records whether the middleware delegated to the inner service
  (`Either::Left(self.service.call(req))` / `self.service.notify(notif)`)
  or answered by itself without touching it
  (`Either::Right(ready(Err(..)))`, `ControlFlow::Break(..)`,
  `ControlFlow::Continue(())`).
* Method name constants come from the external `lsp_types` crate:
  `request::Initialize::METHOD = "initialize"`,
  `request::Shutdown::METHOD = "shutdown"`,
  `notification::Initialized::METHOD = "initialized"`,
  `notification::Exit::METHOD = "exit"`.
-/

set_option autoImplicit false

namespace AsyncLsp

/-- Modelled from the spec: numeric value of the crate's
`ErrorCode::INVALID_REQUEST` (-32600); the error-code module is not under
`src/`, the spec lists the reserved codes in its data-model section. -/
def ErrorCode.INVALID_REQUEST : Int := -32600

/-- Modelled from the spec: numeric value of the crate's
`ErrorCode::METHOD_NOT_FOUND` (-32601). -/
def ErrorCode.METHOD_NOT_FOUND : Int := -32601

/-- Modelled from the spec: numeric value of the crate's
`ErrorCode::SERVER_NOT_INITIALIZED` (-32002). -/
def ErrorCode.SERVER_NOT_INITIALIZED : Int := -32002

/-- `ResponseError { code, message, data }` from the crate root; the
`data` field is `None` in every error constructed by the code modelled
here, so it is embedded as `Option Unit`. -/
structure ResponseError where
  code : Int
  message : String
  data : Option Unit
deriving DecidableEq, Repr

/-- `enum State` of `src/server.rs`: the LSP lifecycle states.  The Rust
enum derives `Default` with `Uninitialized` as the default. -/
inductive State where
  | Uninitialized
  | Initializing
  | Ready
  | ShuttingDown
deriving DecidableEq, Repr

/-- The string the Rust `Debug` derive prints for each `State` variant,
used in the `format!("... on state {:?}", self.state)` message. -/
def State.debugName : State → String
  | State.Uninitialized => "Uninitialized"
  | State.Initializing => "Initializing"
  | State.Ready => "Ready"
  | State.ShuttingDown => "ShuttingDown"

/-- Outcome of `Lifecycle::call`: either the request is forwarded to the
inner service (`Either::Left(self.service.call(req))`) or the middleware
immediately answers with an error and the inner service is never invoked
(`Either::Right(ready(Err(e)))`). -/
inductive CallOutcome where
  | forward
  | respondErr (e : ResponseError)
deriving DecidableEq, Repr

/-- Outcome of `Lifecycle::notify` (a `ControlFlow<Result<()>>`, except
that delegation to the inner service is kept abstract): `Break(Ok(()))`,
`Break(Err(Error::Protocol(msg)))`, `Continue(())` produced by the
middleware itself, or delegation to `self.service.notify(notif)`. -/
inductive NotifyAction where
  | Break_ok
  | Break_protocolErr (msg : String)
  | Continue
  | forward
deriving DecidableEq, Repr

/-- Outcome of `Lifecycle::emit`: the middleware always delegates to
`self.service.emit(event)`. -/
inductive EmitAction where
  | forward
deriving DecidableEq, Repr

/-- The error built in the `(Uninitialized | Initializing, _)` arm of
`Lifecycle::call`. -/
def notInitializedError : ResponseError :=
  ⟨ErrorCode.SERVER_NOT_INITIALIZED, "Server is not initialized yet", none⟩

/-- The error built in the `(_, Initialize::METHOD)` arm of
`Lifecycle::call`. -/
def alreadyInitializedError : ResponseError :=
  ⟨ErrorCode.INVALID_REQUEST, "Server is already initialized", none⟩

/-- The error built in the `(ShuttingDown, _)` arm of `Lifecycle::call`. -/
def shuttingDownError : ResponseError :=
  ⟨ErrorCode.INVALID_REQUEST, "Server is shutting down", none⟩

/-- `Lifecycle::call` from `src/server.rs`, lines 49-79.  The state field
and the returned future are embedded as a pair (new state, outcome); the
match arms appear in the source order, which is significant: the second
arm `(State::Uninitialized | State::Initializing, _)` tests before the
third arm `(_, request::Initialize::METHOD)`. -/
def Lifecycle.call (s : State) (method : String) : State × CallOutcome :=
  match s, method with
  | State.Uninitialized, "initialize" => (State.Initializing, CallOutcome.forward)
  | State.Uninitialized, _
  | State.Initializing, _ => (s, CallOutcome.respondErr notInitializedError)
  | _, "initialize" => (s, CallOutcome.respondErr alreadyInitializedError)
  | State.Ready, _ =>
      (if method = "shutdown" then State.ShuttingDown else s, CallOutcome.forward)
  | State.ShuttingDown, _ => (s, CallOutcome.respondErr shuttingDownError)

/-- `Lifecycle::notify` from `src/server.rs`, lines 83-98, embedded as a
pair (new state, action). -/
def Lifecycle.notify (s : State) (method : String) : State × NotifyAction :=
  match method with
  | "exit" => (s, NotifyAction.Break_ok)
  | "initialized" =>
      if s ≠ State.Initializing then
        (s, NotifyAction.Break_protocolErr
          ("Unexpected initialized notification on state " ++ s.debugName))
      else
        (State.Ready, NotifyAction.Continue)
  | _ => (s, NotifyAction.forward)

/-- `Lifecycle::emit` from `src/server.rs`, lines 100-102: always
delegates to the inner service and never touches the state. -/
def Lifecycle.emit (s : State) : State × EmitAction :=
  (s, EmitAction.forward)

/-- One inbound operation processed by the `Lifecycle` middleware: an
incoming request (`Service::call`), an incoming notification
(`LspService::notify`), or an internal event (`LspService::emit`). -/
inductive Op where
  | call (method : String)
  | notify (method : String)
  | emit

/-- The lifecycle state after the `Lifecycle` middleware processes one
operation. -/
def step (s : State) : Op → State
  | Op.call m => (Lifecycle.call s m).1
  | Op.notify m => (Lifecycle.notify s m).1
  | Op.emit => (Lifecycle.emit s).1

/-- Rust's `str::starts_with(pre)`, phrased on the character lists so
that it evaluates inside the kernel (`String.startsWith` unfolds to a
well-founded byte loop that does not reduce definitionally); for the
ASCII pattern `"$/"` a byte-prefix test and a character-prefix test
agree. -/
def startsWith (s pre : String) : Bool :=
  pre.data.isPrefixOf s.data

/-- `NotifyResult::fallback` for `ControlFlow<Result<()>>` from
`src/omni_trait.rs`, lines 21-32: `Continue(())` when the method starts
with `"$/"`, otherwise `Break(Err(Error::Protocol("Unhandled
notification: {}")))`. -/
def NotifyResult.fallback (method : String) : NotifyAction :=
  if startsWith method "$/" then NotifyAction.Continue
  else NotifyAction.Break_protocolErr ("Unhandled notification: " ++ method)

/-- `method_not_found` from `src/omni_trait.rs`, lines 43-55: the
ready future resolving to a METHOD_NOT_FOUND `ResponseError` naming the
request's method. -/
def method_not_found (method : String) : ResponseError :=
  ⟨ErrorCode.METHOD_NOT_FOUND, "No such method: " ++ method, none⟩

/-- The default request-method bodies of the `LanguageServer` trait
(`define_server!` in `src/omni_trait.rs`), indexed by the method name:
`initialize` is declared without a default body (`none` here); `shutdown`
defaults to `Box::pin(ready(Ok(())))`; every request method of the
generated list (`omni_trait_generated.rs`, which excludes the three
hand-written lifecycle methods) defaults to `method_not_found`.  Success
payloads are collapsed to `Unit`: the only default that succeeds is
`shutdown`, whose LSP result is null. -/
def serverRequestDefault (method : String) : Option (Except ResponseError Unit) :=
  if method = "initialize" then none
  else if method = "shutdown" then some (Except.ok ())
  else some (Except.error (method_not_found method))

/-- The default notification-method bodies of the `LanguageServer`
trait: `exit` defaults to `ControlFlow::Break(Ok(()))`; every generated
notification method defaults to `ControlFlow::fallback::<N>()`. -/
def serverNotificationDefault (method : String) : NotifyAction :=
  if method = "exit" then NotifyAction.Break_ok
  else NotifyResult.fallback method

/-- The default request-method bodies of the `LanguageClient` trait
(`define_client!` in `src/omni_trait.rs`): every request method defaults
to `method_not_found`. -/
def clientRequestDefault (method : String) : Except ResponseError Unit :=
  Except.error (method_not_found method)

/-- The default notification-method bodies of the `LanguageClient`
trait: every notification method defaults to
`Self::NotifyResult::fallback::<N>()`. -/
def clientNotificationDefault (method : String) : NotifyAction :=
  NotifyResult.fallback method


theorem call_initializing (m : String) :
    Lifecycle.call State.Initializing m = (State.Initializing, CallOutcome.respondErr notInitializedError) := by
  unfold Lifecycle.call
  split <;> simp_all

theorem call_uninit_other (m : String) (h : m ≠ "initialize") :
    Lifecycle.call State.Uninitialized m = (State.Uninitialized, CallOutcome.respondErr notInitializedError) := by
  unfold Lifecycle.call
  split <;> simp_all

theorem call_ready_other (m : String) (h : m ≠ "initialize") :
    Lifecycle.call State.Ready m = (if m = "shutdown" then State.ShuttingDown else State.Ready, CallOutcome.forward) := by
  unfold Lifecycle.call
  split <;> simp_all

theorem call_sd_other (m : String) (h : m ≠ "initialize") :
    Lifecycle.call State.ShuttingDown m = (State.ShuttingDown, CallOutcome.respondErr shuttingDownError) := by
  unfold Lifecycle.call
  split <;> simp_all

theorem notify_other (s : State) (m : String) (h1 : m ≠ "exit") (h2 : m ≠ "initialized") :
    Lifecycle.notify s m = (s, NotifyAction.forward) := by
  unfold Lifecycle.notify
  split <;> simp_all

/-- The state component of `Lifecycle::notify` is unchanged in state
`ShuttingDown`, whatever the method. -/
theorem notify_fst_shuttingDown (m : String) :
    (Lifecycle.notify State.ShuttingDown m).1 = State.ShuttingDown := by
  unfold Lifecycle.notify
  split <;> simp_all

/-- The state component of `Lifecycle::call` is unchanged in state
`ShuttingDown`, whatever the method. -/
theorem call_fst_shuttingDown (m : String) :
    (Lifecycle.call State.ShuttingDown m).1 = State.ShuttingDown := by
  unfold Lifecycle.call
  split <;> simp_all

/-- Every operation leaves the `ShuttingDown` state in place. -/
theorem step_shuttingDown (op : Op) :
    step State.ShuttingDown op = State.ShuttingDown := by
  cases op with
  | call m => exact call_fst_shuttingDown m
  | notify m => exact notify_fst_shuttingDown m
  | emit => rfl

/-- C3: in state `Uninitialized`, an `initialize` request is forwarded to
the inner service and the state becomes `Initializing` (first arm of
`Lifecycle::call`). -/
theorem uninitialized_initialize_forwards :
    Lifecycle.call State.Uninitialized "initialize"
      = (State.Initializing, CallOutcome.forward) := by decide

/-- C1 counterexample: in state `Initializing`, an `initialize` request is
answered with `SERVER_NOT_INITIALIZED` (-32002), not `INVALID_REQUEST`
(-32600): the or-pattern arm `(Uninitialized | Initializing, _)` catches
it before the `(_, "initialize")` arm. -/
theorem initializing_initialize_not_invalid_request :
    (Lifecycle.call State.Initializing "initialize").2
      = CallOutcome.respondErr notInitializedError ∧
    notInitializedError.code = ErrorCode.SERVER_NOT_INITIALIZED ∧
    notInitializedError.code ≠ ErrorCode.INVALID_REQUEST := by decide

/-- C1 (amended): in every state other than `Uninitialized`, an
`initialize` request is answered immediately with a `ResponseError`, the
inner service is not invoked and the state does not change; the error
code is `INVALID_REQUEST` in `Ready` and `ShuttingDown`, but
`SERVER_NOT_INITIALIZED` in `Initializing`. -/
theorem initialize_rejected_when_not_uninitialized (s : State)
    (h : s ≠ State.Uninitialized) :
    (Lifecycle.call s "initialize").1 = s ∧
    (Lifecycle.call s "initialize").2 = CallOutcome.respondErr
      (if s = State.Initializing then notInitializedError
       else alreadyInitializedError) := by
  cases s
  · exact absurd rfl h
  all_goals exact ⟨by decide, by decide⟩

/-- Witness for C1 at the concrete state `Ready`. -/
theorem initialize_rejected_when_not_uninitialized_witness :
    (Lifecycle.call State.Ready "initialize").1 = State.Ready ∧
    (Lifecycle.call State.Ready "initialize").2 = CallOutcome.respondErr
      (if State.Ready = State.Initializing then notInitializedError
       else alreadyInitializedError) :=
  initialize_rejected_when_not_uninitialized State.Ready (by decide)

/-- C2 counterexample: in state `Uninitialized`, a
`textDocument/didOpen` notification is not ignored by the middleware:
the wildcard arm of `Lifecycle::notify` delegates to the inner
service's `notify` instead of returning `Continue` by itself. -/
theorem uninitialized_notification_not_ignored :
    (Lifecycle.notify State.Uninitialized "textDocument/didOpen").2
      = NotifyAction.forward ∧
    NotifyAction.forward ≠ NotifyAction.Continue := by decide

/-- C2 (amended): in every state — in particular in `Uninitialized` and
`Initializing` — a notification whose method is neither `initialized`
nor `exit` is forwarded to the inner service's `notify`, with the
lifecycle state unchanged. -/
theorem other_notification_forwarded (s : State) (m : String)
    (h1 : m ≠ "initialized") (h2 : m ≠ "exit") :
    Lifecycle.notify s m = (s, NotifyAction.forward) :=
  notify_other s m h2 h1

/-- Witness for C2 at the concrete state `Uninitialized` and method
`textDocument/didChange`. -/
theorem other_notification_forwarded_witness :
    Lifecycle.notify State.Uninitialized "textDocument/didChange"
      = (State.Uninitialized, NotifyAction.forward) :=
  other_notification_forwarded State.Uninitialized "textDocument/didChange"
    (by decide) (by decide)

/-- C4: an `initialized` notification in state `Initializing` moves the
state to `Ready` and returns `Continue`; in any other state it returns
`Break(Err(Error::Protocol(..)))` and leaves the state unchanged. -/
theorem initialized_notification_transitions :
    Lifecycle.notify State.Initializing "initialized"
      = (State.Ready, NotifyAction.Continue) ∧
    ∀ s : State, s ≠ State.Initializing →
      Lifecycle.notify s "initialized" =
        (s, NotifyAction.Break_protocolErr
          ("Unexpected initialized notification on state " ++ s.debugName)) := by
  refine ⟨by decide, ?_⟩
  intro s h
  cases s
  case Initializing => exact absurd rfl h
  all_goals decide

/-- Witness for C4 at the concrete state `Ready`. -/
theorem initialized_notification_transitions_witness :
    Lifecycle.notify State.Ready "initialized" =
      (State.Ready, NotifyAction.Break_protocolErr
        ("Unexpected initialized notification on state "
          ++ State.Ready.debugName)) :=
  initialized_notification_transitions.2 State.Ready (by decide)

/-- C5: in states `Uninitialized` and `Initializing`, any request whose
method is not `initialize` is answered immediately with the
`SERVER_NOT_INITIALIZED` (-32002) error, the inner service is not
invoked and the state does not change. -/
theorem uninitialized_request_rejected (s : State) (m : String)
    (hs : s = State.Uninitialized ∨ s = State.Initializing)
    (hm : m ≠ "initialize") :
    Lifecycle.call s m = (s, CallOutcome.respondErr notInitializedError) ∧
    notInitializedError.code = -32002 := by
  rcases hs with h | h <;> subst h
  · exact ⟨call_uninit_other m hm, by decide⟩
  · exact ⟨call_initializing m, by decide⟩

/-- Witness for C5 at the concrete state `Uninitialized` and method
`textDocument/hover`. -/
theorem uninitialized_request_rejected_witness :
    Lifecycle.call State.Uninitialized "textDocument/hover"
      = (State.Uninitialized, CallOutcome.respondErr notInitializedError) ∧
    notInitializedError.code = -32002 :=
  uninitialized_request_rejected State.Uninitialized "textDocument/hover"
    (Or.inl rfl) (by decide)

/-- C6: in state `Ready`, a `shutdown` request is forwarded and the state
becomes `ShuttingDown`; every other non-`initialize` request is forwarded
with the state unchanged; in state `ShuttingDown`, every non-`initialize`
request is answered immediately with the `INVALID_REQUEST` error without
reaching the inner service. -/
theorem ready_and_shuttingdown_requests :
    Lifecycle.call State.Ready "shutdown"
      = (State.ShuttingDown, CallOutcome.forward) ∧
    (∀ m : String, m ≠ "initialize" → m ≠ "shutdown" →
      Lifecycle.call State.Ready m = (State.Ready, CallOutcome.forward)) ∧
    (∀ m : String, m ≠ "initialize" →
      Lifecycle.call State.ShuttingDown m
        = (State.ShuttingDown, CallOutcome.respondErr shuttingDownError)) ∧
    shuttingDownError.code = ErrorCode.INVALID_REQUEST := by
  refine ⟨by decide, ?_, ?_, by decide⟩
  · intro m h1 h2
    rw [call_ready_other m h1, if_neg h2]
  · intro m h1
    exact call_sd_other m h1

/-- Witness for C6 at the concrete methods `textDocument/hover` (in
`Ready`) and `shutdown` (in `ShuttingDown`). -/
theorem ready_and_shuttingdown_requests_witness :
    Lifecycle.call State.Ready "textDocument/hover"
      = (State.Ready, CallOutcome.forward) ∧
    Lifecycle.call State.ShuttingDown "shutdown"
      = (State.ShuttingDown, CallOutcome.respondErr shuttingDownError) :=
  ⟨ready_and_shuttingdown_requests.2.1 "textDocument/hover"
      (by decide) (by decide),
   ready_and_shuttingdown_requests.2.2.1 "shutdown" (by decide)⟩

/-- C7: an `exit` notification returns `Break(Ok(()))` in every state,
without invoking the inner service and without changing the lifecycle
state (first arm of `Lifecycle::notify`). -/
theorem exit_notification_breaks_ok (s : State) :
    Lifecycle.notify s "exit" = (s, NotifyAction.Break_ok) := rfl

/-- C8 counterexample: `exit` is a notification method of the
`LanguageServer` omni-trait, its default body is
`ControlFlow::Break(Ok(()))` and not the `$/`-aware fallback, although
`"exit"` does not start with `"$/"`. -/
theorem exit_default_not_fallback :
    serverNotificationDefault "exit" = NotifyAction.Break_ok ∧
    NotifyResult.fallback "exit"
      = NotifyAction.Break_protocolErr "Unhandled notification: exit" ∧
    serverNotificationDefault "exit" ≠ NotifyResult.fallback "exit" := by
  decide

/-- C8 (amended): every request method of the `LanguageServer` and
`LanguageClient` omni-traits other than `initialize` and `shutdown`
defaults to a `ResponseError` with code `METHOD_NOT_FOUND` naming the
method, and every notification method other than the server's `exit`
defaults to the `$/`-aware fallback — `Continue` when the method starts
with `"$/"`, `Break` with a protocol error otherwise; the server's
`exit` instead defaults to `Break(Ok(()))`. -/
theorem omni_trait_defaults (m : String) :
    (m ≠ "initialize" → m ≠ "shutdown" →
      serverRequestDefault m = some (Except.error (method_not_found m))) ∧
    clientRequestDefault m = Except.error (method_not_found m) ∧
    (method_not_found m).code = ErrorCode.METHOD_NOT_FOUND ∧
    (method_not_found m).message = "No such method: " ++ m ∧
    (m ≠ "exit" → serverNotificationDefault m = NotifyResult.fallback m) ∧
    clientNotificationDefault m = NotifyResult.fallback m ∧
    (startsWith m "$/" = true → NotifyResult.fallback m = NotifyAction.Continue) ∧
    (startsWith m "$/" = false → NotifyResult.fallback m
      = NotifyAction.Break_protocolErr ("Unhandled notification: " ++ m)) ∧
    serverNotificationDefault "exit" = NotifyAction.Break_ok := by
  refine ⟨?_, rfl, rfl, rfl, ?_, rfl, ?_, ?_, by decide⟩
  · intro h1 h2
    simp [serverRequestDefault, h1, h2]
  · intro h
    simp [serverNotificationDefault, h]
  · intro h
    simp [NotifyResult.fallback, h]
  · intro h
    simp [NotifyResult.fallback, h]

/-- Witness for C8 at the concrete methods `textDocument/hover` and
`$/cancelRequest`. -/
theorem omni_trait_defaults_witness :
    serverRequestDefault "textDocument/hover"
      = some (Except.error (method_not_found "textDocument/hover")) ∧
    NotifyResult.fallback "$/cancelRequest" = NotifyAction.Continue :=
  ⟨(omni_trait_defaults "textDocument/hover").1 (by decide) (by decide),
   (omni_trait_defaults "$/cancelRequest").2.2.2.2.2.2.1 (by decide)⟩

/-- C9: in the `LanguageServer` omni-trait, `initialize` is declared
without a default body, the default `shutdown` body resolves to
`Ok(())`, and the default `exit` body returns `Break(Ok(()))`. -/
theorem mandatory_lifecycle_defaults :
    serverRequestDefault "initialize" = none ∧
    serverRequestDefault "shutdown" = some (Except.ok ()) ∧
    serverNotificationDefault "exit" = NotifyAction.Break_ok :=
  ⟨rfl, rfl, rfl⟩

/-- C10: `ShuttingDown` is an absorbing state: no sequence of call,
notify or emit operations ever changes the state again; from then on no
request is ever forwarded to the inner service (every `call` answers
with a `ResponseError`), while non-lifecycle notifications and events
still reach the inner service. -/
theorem shuttingDown_absorbing :
    (∀ ops : List Op, ops.foldl step State.ShuttingDown = State.ShuttingDown) ∧
    (∀ m : String, ∃ e : ResponseError,
      (Lifecycle.call State.ShuttingDown m).2 = CallOutcome.respondErr e) ∧
    (∀ m : String, m ≠ "exit" → m ≠ "initialized" →
      (Lifecycle.notify State.ShuttingDown m).2 = NotifyAction.forward) ∧
    (Lifecycle.emit State.ShuttingDown).2 = EmitAction.forward := by
  refine ⟨?_, ?_, ?_, rfl⟩
  · intro ops
    induction ops with
    | nil => rfl
    | cons op t ih => rw [List.foldl_cons, step_shuttingDown op]; exact ih
  · intro m
    by_cases hm : m = "initialize"
    · subst hm
      exact ⟨alreadyInitializedError, by decide⟩
    · exact ⟨shuttingDownError, by rw [call_sd_other m hm]⟩
  · intro m h1 h2
    rw [notify_other State.ShuttingDown m h1 h2]

/-- Witness for C10 on a concrete operation sequence and a concrete
notification method. -/
theorem shuttingDown_absorbing_witness :
    ([Op.call "initialize", Op.notify "textDocument/didSave",
        Op.emit].foldl step State.ShuttingDown = State.ShuttingDown) ∧
    (Lifecycle.notify State.ShuttingDown "textDocument/didSave").2
      = NotifyAction.forward :=
  ⟨shuttingDown_absorbing.1 _,
   shuttingDown_absorbing.2.2.1 "textDocument/didSave" (by decide) (by decide)⟩

end AsyncLsp
